import Mathlib

set_option linter.unusedVariables false

/-!
Shallow embedding of the Quantova-Tools demonstration programs.

The repository consists of ten standalone Rust demo programs that call
external post-quantum cryptography libraries (liboqs via the oqs crate,
and the pqcrypto crate family).  Each demo is a linear sequence of
library calls, prints, and branch-on-verification-result steps.

Embedding conventions:
- byte buffers (keys, signatures, ciphertexts, shared secrets) are
  `List Nat`;
- the external library primitives (keygen, sign, verify, encapsulate,
  decapsulate) are randomized or opaque, so each demo is modelled as a
  function of the values those primitives return in a given run;
- per-run randomness (the `rand::random` byte stream of threshold.rs)
  is an explicit stream `Nat → Nat`, the i-th draw being `ρ i`;
- each demo run is a `RunResult`: the sequence of observable print
  events, the exit behaviour, and the list of filesystem writes;
- `std::collections::HashMap` keyed by `0..TOTAL_SHARES` is modelled as
  an association list in key order (the keys inserted are exactly
  `0..TOTAL_SHARES-1`, so the map content is determined by that list).
-/

namespace QuantovaTools

/-- Byte buffers (Rust `Vec<u8>` / `&[u8]`); each entry is one byte. -/
abbrev Bytes := List Nat

/-- Exit behaviour of a demo function: return normally to the caller,
terminate the whole process with an exit code, or panic (abort). -/
inductive ExitKind where
  | normal
  | exited (code : Nat)
  | panicked
deriving DecidableEq

/-- Observable print events of the demos.  Constructors carry the data
that the corresponding `println!` interpolates; fixed banner text is
`line`.  `verifyClassicCall` and `verifyPqcCall` additionally record
which signature value is passed to a verification function. -/
inductive Event where
  | line (s : String)
  | keyPairGenerated (pk sk : Bytes)
  | messageShown (m : Bytes)
  | shareGenerated (i : Nat) (share : Bytes)
  | totalSharesShown (n : Nat)
  | partSignatureShown (i : Nat) (sig : Bytes)
  | aggregatedShown (sig : Bytes)
  | verifySuccess
  | verifyFail
  | signatureGenerated
  | publicKeySaved
  | saveFailed
  | hybridSignatureShown (sig : Bytes)
  | verifyClassicCall (data sig : Bytes)
  | verifyPqcCall (data sig : Bytes)
  | classicValidShown (b : Bool)
  | pqcValidShown (b : Bool)
  | allSignaturesValid
  | verificationFailed
  | secretsMatch
  | secretsMismatch
  | sharedSecretsMatchShown (b : Bool)
  | verifiedSuccessfully (m : Bytes)
  | signatureVerificationFailed
deriving DecidableEq

/-- Result of one run of a demo function: printed events, exit
behaviour, and filesystem writes performed (filename, content). -/
structure RunResult where
  output : List Event
  exit : ExitKind
  writes : List (String × Bytes)
deriving DecidableEq

/-! ## rust-liboqs/src/threshold.rs -/

/-- `const THRESHOLD: usize = 3` — minimum number of shares required. -/
def THRESHOLD : Nat := 3

/-- `const TOTAL_SHARES: usize = 5` — total number of shares. -/
def TOTAL_SHARES : Nat := 5

/-- The `QuantumSafeThreshold` struct: a Dilithium2 keypair. -/
structure QuantumSafeThreshold where
  public_key : Bytes
  secret_key : Bytes
deriving DecidableEq

/-- `QuantumSafeThreshold::split_private_key`: for each
`i in 0..TOTAL_SHARES`, draw `secret_key.len()` fresh random bytes from
the RNG stream `ρ` (draws are consecutive, so share `i` uses draws
`i*len .. i*len+len-1`) and insert them at key `i`.  The secret key
itself enters only through its length. -/
def split_private_key (t : QuantumSafeThreshold) (ρ : Nat → Nat) :
    List (Nat × Bytes) :=
  (List.range TOTAL_SHARES).map (fun i =>
    (i, (List.range t.secret_key.length).map
      (fun j => ρ (i * t.secret_key.length + j))))

/-- `QuantumSafeThreshold::aggregate_signatures`: returns
`partial_sigs[0].clone()`.  `List.head?` models the indexing, which
panics (`none`) exactly when the vector is empty; `clone` is a value
copy. -/
def aggregate_signatures (t : QuantumSafeThreshold)
    (partSigs : List Bytes) : Option Bytes :=
  partSigs.head?

/-- The partial-signature loop of `threshold()`:
`for (i, _) in shares.iter().take(THRESHOLD)` pushes one
`partial_sign(message)` result per iteration.  `partial_sign` signs
with the full secret key each time; its (randomized) output at the
j-th loop iteration is `psig j`. -/
def threshold_partSigs (shares : List (Nat × Bytes))
    (psig : Nat → Bytes) : List Bytes :=
  (shares.take THRESHOLD).enum.map (fun p => psig p.1)

/-- One run of `pub fn threshold()`.  `verifies` is the boolean that
the library `sig.verify(...).is_ok()` returns for the aggregated
signature in this run; `verify_signature` prints a success or failure
line and `threshold()` discards the returned boolean.  The function
returns normally; the only abnormal path is the `partial_sigs[0]`
panic inside `aggregate_signatures` when the list is empty. -/
def threshold_run (t : QuantumSafeThreshold) (ρ : Nat → Nat)
    (psig : Nat → Bytes) (verifies : Bool) : RunResult :=
  let shares := split_private_key t ρ
  let psigs := threshold_partSigs shares psig
  let prefixOut : List Event :=
    [.line "Original Message", .keyPairGenerated t.public_key t.secret_key]
      ++ shares.map (fun p => .shareGenerated p.1 p.2)
      ++ [.totalSharesShown shares.length]
      ++ psigs.enum.map (fun p => .partSignatureShown p.1 p.2)
  match aggregate_signatures t psigs with
  | none =>
    { output := prefixOut, exit := .panicked, writes := [] }
  | some agg =>
    { output := prefixOut
        ++ [.aggregatedShown agg,
            if verifies then .verifySuccess else .verifyFail],
      exit := .normal,
      writes := [] }

/-! ## rust-liboqs/src/authentication.rs -/

/-- The `QuantumSafeAuth` struct: a Dilithium2 keypair. -/
structure QuantumSafeAuth where
  public_key : Bytes
  secret_key : Bytes
deriving DecidableEq

/-- `QuantumSafeAuth::save_to_file`: `File::create(filename)` truncates
or creates the file, then `write_all(self.public_key.as_ref())` writes
exactly the public key bytes.  The filesystem is a map from filename to
content; the successful call overwrites `filename` with the public key
and leaves every other file unchanged. -/
def save_to_file (auth : QuantumSafeAuth) (fs : String → Option Bytes)
    (filename : String) : String → Option Bytes :=
  fun f => if f = filename then some auth.public_key else fs f

/-- One run of `pub fn authentication()`.  `verifies` is the result of
the library verification, `saveOk` tells whether `save_to_file`
succeeded (an I/O failure prints an error line and writes nothing).
Both branches fall through to `auth.terminate()`, which calls
`process::exit(0)`. -/
def authentication_run (auth : QuantumSafeAuth) (verifies : Bool)
    (saveOk : Bool) : RunResult :=
  { output := [.keyPairGenerated auth.public_key auth.secret_key,
               .line "Message",
               .signatureGenerated,
               if verifies then .verifySuccess else .verifyFail,
               if saveOk then .publicKeySaved else .saveFailed,
               .line "Terminating the process."],
    exit := .exited 0,
    writes := if saveOk then [("public_key.bin", auth.public_key)] else [] }

/-! ## rust-liboqs/src/schnorr.rs -/

/-- One run of `pub fn schnorr()` (Dilithium3 under a Schnorr banner):
keygen, sign, verify; the boolean returned by `verify` is discarded and
the function returns normally. -/
def schnorr_run (pk sk sigBytes : Bytes) (verifies : Bool) : RunResult :=
  { output := [.line "Message",
               .keyPairGenerated pk sk,
               .signatureGenerated,
               .line "Verifying Signature",
               if verifies then .verifySuccess else .verifyFail],
    exit := .normal,
    writes := [] }

/-! ## rust-liboqs/src/hybrid_keys.rs -/

/-- One run of `pub fn hybrid_keys()`.  `classicSig`/`pqcSig` are the
Ed25519 and Dilithium2 signatures of `data` produced in this run;
`classicValid`/`pqcValid` the results of the two library
verifications.  The hybrid signature is the plain concatenation
`[classic_signature.as_ref(), pqc_signature.as_ref()].concat()`;
the two verification calls receive the individual signatures, and the
final verdict line depends on `classic_valid && pqc_valid`. -/
def hybrid_run (data classicSig pqcSig : Bytes)
    (classicValid pqcValid : Bool) : RunResult :=
  let hybridSignature := classicSig ++ pqcSig
  { output := [.messageShown data,
               .hybridSignatureShown hybridSignature,
               .verifyClassicCall data classicSig,
               .verifyPqcCall data pqcSig,
               .classicValidShown classicValid,
               .pqcValidShown pqcValid,
               if classicValid && pqcValid then .allSignaturesValid
               else .verificationFailed],
    exit := .normal,
    writes := [] }

/-- The list of signature values passed to a verification function
during a run, in call order. -/
def verifiedSigs (r : RunResult) : List Bytes :=
  r.output.filterMap (fun e =>
    match e with
    | .verifyClassicCall _ s => some s
    | .verifyPqcCall _ s => some s
    | _ => none)

/-! ## pqcrypto/frodokem/src/main.rs and pqcrypto/ntru-encrypt/src/main.rs -/

/-- One run of the FrodoKEM-976-AES demo `main`.  `(pk, sk)` is the
keypair the library returned, `encapsulate` and `decapsulate` are the
library functions as behaving in this run (encapsulation randomness is
folded into `encapsulate`; it returns the pair (shared secret,
ciphertext)).  The demo prints the match line exactly when
`ss_sender.as_bytes() == ss_receiver.as_bytes()`. -/
def frodokem_run (pk sk : Bytes) (encapsulate : Bytes → Bytes × Bytes)
    (decapsulate : Bytes → Bytes → Bytes) : RunResult :=
  let ssSender := (encapsulate pk).1
  let ct := (encapsulate pk).2
  let ssReceiver := decapsulate ct sk
  { output := [.keyPairGenerated pk sk,
               .line "Ciphertext generated",
               .line "Shared Secret Sender side",
               .line "Shared Secret Receiver side",
               if ssSender = ssReceiver then .secretsMatch
               else .secretsMismatch],
    exit := .normal,
    writes := [] }

/-- One run of the NTRU-HRSS-701 demo `main`: same shape as the
FrodoKEM demo but the verdict is
`let success = shared_secret_1.as_bytes() == shared_secret_2.as_bytes()`
printed as a boolean. -/
def ntru_run (pk sk : Bytes) (encapsulate : Bytes → Bytes × Bytes)
    (decapsulate : Bytes → Bytes → Bytes) : RunResult :=
  let ss1 := (encapsulate pk).1
  let ct := (encapsulate pk).2
  let ss2 := decapsulate ct sk
  { output := [.keyPairGenerated pk sk,
               .line "Encapsulating shared secret",
               .line "Decapsulating shared secret",
               .sharedSecretsMatchShown (ss1 == ss2)],
    exit := .normal,
    writes := [] }

/-! ## pqcrypto/ntru-encrypt/src/main.rs: reconstruct_keys_from_bytes

The library constants `public_key_bytes()` / `secret_key_bytes()` and
the two `from_bytes` parsers are external; they are passed as
parameters `pkLen`, `skLen`, `fromBytesPk`, `fromBytesSk` (a parser
returns `none` on failure). -/

/-- `reconstruct_keys_from_bytes`: validate both input lengths first
(returning the corresponding error string on mismatch), then parse the
public key, then the secret key, and return both keys on success. -/
def reconstruct_keys_from_bytes (pkLen skLen : Nat)
    (fromBytesPk fromBytesSk : Bytes → Option Bytes)
    (pk_bytes sk_bytes : Bytes) : Except String (Bytes × Bytes) :=
  if pk_bytes.length ≠ pkLen then
    .error "Invalid public key length"
  else if sk_bytes.length ≠ skLen then
    .error "Invalid secret key length"
  else
    match fromBytesPk pk_bytes with
    | none => .error "Failed to reconstruct public key"
    | some pk =>
      match fromBytesSk sk_bytes with
      | none => .error "Failed to reconstruct secret key"
      | some sk => .ok (pk, sk)

/-! ## Modelled signature library (pqcrypto sign / open)

The pqcrypto signature crates (`pqcrypto_dilithium::dilithium3`,
`pqcrypto_falcon::falcon512`,
`pqcrypto_sphincsplus::sphincssha256128frobust`) are external native
libraries whose code is not part of this repository; only their
callers are.  They are modelled from the spec sentence: verification
of a signed message succeeds and returns the original message for the
matching keypair, and is rejected for a mismatched keypair or a
tampered message. -/

namespace SpecSig

/-- Modelled from the spec: a pqcrypto `SignedMessage` bundles the
message with signature data; the signature data binds both the signing
key and the signed message. -/
structure SignedMsg where
  msg : Bytes
  tagKey : Nat
  tagMsg : Bytes
deriving DecidableEq

/-- Modelled from the spec: `keypair()` returns a matching
public/secret key pair (abstract keys indexed by the randomness
`seed`; matching means same index). -/
def keypair (seed : Nat) : Nat × Nat :=
  (seed, seed)

/-- Modelled from the spec: `sign(message, sk)` produces a
`SignedMessage` whose signature data binds `sk` and `message`. -/
def sign (m : Bytes) (sk : Nat) : SignedMsg :=
  { msg := m, tagKey := sk, tagMsg := m }

/-- Modelled from the spec: `open(sm, pk)` checks the signature data
against `pk` and the carried message, returning the original message
on success and rejecting otherwise. -/
def openSigned (sm : SignedMsg) (pk : Nat) : Option Bytes :=
  if sm.tagKey = pk ∧ sm.tagMsg = sm.msg then some sm.msg else none

/-- Tampering with a signed message: the carried message bytes are
replaced while the signature data is kept. -/
def tamper (sm : SignedMsg) (m : Bytes) : SignedMsg :=
  { sm with msg := m }

end SpecSig

/-! ## pqcrypto signature demos (dilithium3, sphincs, falcon) -/

/-- One run of the Dilithium3 demo `main`: keygen, sign, then
`open(&signed_message, &pk)`; `opened` is the result of that library
call in this run. -/
def dilithium3_run (pk : Bytes) (opened : Option Bytes) : RunResult :=
  { output := [.line "Public Key",
               .line "Signed Message Length",
               match opened with
               | some m => .verifiedSuccessfully m
               | none => .signatureVerificationFailed],
    exit := .normal,
    writes := [] }

/-- One run of the SPHINCS+ demo `main` (same linear shape as the
Dilithium3 demo; on success it additionally requires the recovered
message to be valid UTF-8, which holds for its ASCII message). -/
def sphincs_run (pk : Bytes) (opened : Option Bytes) : RunResult :=
  { output := [.line "Public Key",
               .line "Signed Message Length",
               match opened with
               | some m => .verifiedSuccessfully m
               | none => .signatureVerificationFailed],
    exit := .normal,
    writes := [] }

/-- One run of the Falcon512 demo `main` (same linear shape as the
Dilithium3 demo). -/
def falcon_run (pk : Bytes) (opened : Option Bytes) : RunResult :=
  { output := [.line "Public Key",
               .line "Signed Message Length",
               match opened with
               | some m => .verifiedSuccessfully m
               | none => .signatureVerificationFailed],
    exit := .normal,
    writes := [] }

/-! ## Operation sequences of the ten programs (runtime-input model)

Each program is modelled as a function from its command-line arguments
`argv` and standard input `stdin` (a list of lines, as read by
`read_line`) to the sequence of top-level operations it performs.  The
four pqcrypto demos and the rust-liboqs demo functions never read
`argv` or `stdin`; the rust-liboqs `main` menu loop reads one stdin
line per iteration and dispatches on the trimmed line. -/

/-- Top-level operations a program performs. -/
inductive DemoOp where
  | keypairGen
  | signMsg
  | openMsg
  | encapsulateOp
  | decapsulateOp
  | runAuth
  | runHybrid
  | runSchnorr
  | runThreshold
  | menuExit
  | invalidChoice
deriving DecidableEq

/-- Rust `str::trim`: the string with leading and trailing whitespace
removed (modelled over the character list; `String.trim` of the
library agrees but does not reduce in the kernel). -/
def rustTrim (s : String) : String :=
  String.mk
    (((s.data.dropWhile Char.isWhitespace).reverse.dropWhile
      Char.isWhitespace).reverse)

/-- The menu loop of rust-liboqs `main`: read a line, dispatch on its
trimmed content.  Choice `"1"` runs `authentication()`, which ends in
`process::exit(0)` and never returns, so no further operation follows
it; choices `"2"`-`"4"` run demos that return normally and the loop
continues; `"5"` breaks the loop; anything unrecognized prints an
invalid-option line and loops.  The model processes the finite list of
available stdin lines (a run whose input is exhausted keeps looping on
empty reads; the model truncates there). -/
def menu_loop : List String → List DemoOp
  | [] => []
  | choice :: rest =>
    match rustTrim choice with
    | "1" => [.runAuth]
    | "2" => .runHybrid :: menu_loop rest
    | "3" => .runSchnorr :: menu_loop rest
    | "4" => .runThreshold :: menu_loop rest
    | "5" => [.menuExit]
    | _ => .invalidChoice :: menu_loop rest

/-- Operation sequence of rust-liboqs `main`: the menu loop over
stdin; `argv` is never read. -/
def liboqs_main_ops (argv stdin : List String) : List DemoOp :=
  menu_loop stdin

/-- Operation sequence of the Dilithium3 demo: fixed; neither `argv`
nor `stdin` is read. -/
def dilithium3_ops (argv stdin : List String) : List DemoOp :=
  [.keypairGen, .signMsg, .openMsg]

/-- Operation sequence of the SPHINCS+ demo: fixed. -/
def sphincs_ops (argv stdin : List String) : List DemoOp :=
  [.keypairGen, .signMsg, .openMsg]

/-- Operation sequence of the Falcon512 demo: fixed. -/
def falcon_ops (argv stdin : List String) : List DemoOp :=
  [.keypairGen, .signMsg, .openMsg]

/-- Operation sequence of the FrodoKEM demo: fixed. -/
def frodokem_ops (argv stdin : List String) : List DemoOp :=
  [.keypairGen, .encapsulateOp, .decapsulateOp]

/-- Operation sequence of the NTRU demo: fixed. -/
def ntru_ops (argv stdin : List String) : List DemoOp :=
  [.keypairGen, .encapsulateOp, .decapsulateOp]

/-! ## Theorems -/

/-- Helper: splitting always produces exactly `TOTAL_SHARES` shares. -/
theorem split_private_key_length (t : QuantumSafeThreshold)
    (ρ : Nat → Nat) : (split_private_key t ρ).length = TOTAL_SHARES := by
  simp [split_private_key]

/-- Helper: on the shares produced by `split_private_key`, the
partial-signature loop runs exactly `THRESHOLD` times, producing the
three per-iteration signing results. -/
theorem threshold_partSigs_eq (t : QuantumSafeThreshold)
    (ρ : Nat → Nat) (psig : Nat → Bytes) :
    threshold_partSigs (split_private_key t ρ) psig
      = [psig 0, psig 1, psig 2] := rfl

/-- Helper: `threshold()` always returns normally (in particular the
`partial_sigs[0]` access does not panic). -/
theorem threshold_run_exit_normal (t : QuantumSafeThreshold)
    (ρ : Nat → Nat) (psig : Nat → Bytes) (v : Bool) :
    (threshold_run t ρ psig v).exit = .normal := rfl

/-- C1: for every non-empty list of partial signatures,
`aggregate_signatures` returns a clone of the first element — the
result is `sigs[0]` whatever the remaining elements are, so no
combination of the rest takes place. -/
theorem c1_aggregate_returns_first (t : QuantumSafeThreshold)
    (s : Bytes) (rest : List Bytes) :
    aggregate_signatures t (s :: rest) = some s := rfl

/-- C2: `split_private_key` depends on the secret key only through its
byte length: two states whose secret keys have equal length yield
identical share maps under the same randomness, and every share has
the secret key byte length (the shares are fresh random bytes,
unrelated to the key content — no polynomial or Lagrange structure). -/
theorem c2_split_depends_only_on_key_length
    (t1 t2 : QuantumSafeThreshold) (ρ : Nat → Nat)
    (h : t1.secret_key.length = t2.secret_key.length) :
    split_private_key t1 ρ = split_private_key t2 ρ
      ∧ ∀ p ∈ split_private_key t1 ρ,
          p.2.length = t1.secret_key.length := by
  constructor
  · simp only [split_private_key, h]
  · intro p hp
    simp only [split_private_key, List.mem_map, List.mem_range] at hp
    obtain ⟨i, hi, rfl⟩ := hp
    simp

/-- Witness for C2 at concrete states with equal-length secret keys
and the identity randomness stream. -/
theorem c2_split_depends_only_on_key_length_witness :
    (QuantumSafeThreshold.mk [] [1, 2]).secret_key.length
        = (QuantumSafeThreshold.mk [9] [3, 4]).secret_key.length
      ∧ (split_private_key (QuantumSafeThreshold.mk [] [1, 2]) (fun n => n)
          = split_private_key (QuantumSafeThreshold.mk [9] [3, 4]) (fun n => n)
        ∧ ∀ p ∈ split_private_key (QuantumSafeThreshold.mk [] [1, 2]) (fun n => n),
            p.2.length = (QuantumSafeThreshold.mk [] [1, 2]).secret_key.length) :=
  ⟨by decide,
   c2_split_depends_only_on_key_length
     (QuantumSafeThreshold.mk [] [1, 2])
     (QuantumSafeThreshold.mk [9] [3, 4]) (fun n => n) (by decide)⟩

/-- C8: `threshold()` always generates `TOTAL_SHARES = 5` shares,
`THRESHOLD = 3` of them feed the partial-signature loop, so
`aggregate_signatures` receives exactly `THRESHOLD` partial signatures
and its index-0 access succeeds (returning the first one); the run
ends normally rather than panicking. -/
theorem c8_partials_count_and_no_panic (t : QuantumSafeThreshold)
    (ρ : Nat → Nat) (psig : Nat → Bytes) (v : Bool) :
    (split_private_key t ρ).length = TOTAL_SHARES
      ∧ THRESHOLD ≤ TOTAL_SHARES
      ∧ (threshold_partSigs (split_private_key t ρ) psig).length = THRESHOLD
      ∧ aggregate_signatures t (threshold_partSigs (split_private_key t ρ) psig)
          = some (psig 0)
      ∧ (threshold_run t ρ psig v).exit = .normal :=
  ⟨split_private_key_length t ρ, by decide, rfl, rfl,
   threshold_run_exit_normal t ρ psig v⟩

/-- C3: the exit status of the authentication, threshold and schnorr
demos does not depend on the verification result: authentication
always terminates through `process::exit(0)` (whatever the
verification and save outcomes), and threshold and schnorr discard the
verification boolean and return normally; flipping the verification
result changes neither exit behaviour nor filesystem writes. -/
theorem c3_exit_independent_of_verification
    (auth : QuantumSafeAuth) (saveOk : Bool)
    (t : QuantumSafeThreshold) (ρ : Nat → Nat) (psig : Nat → Bytes)
    (pk sk sigBytes : Bytes) (v v2 : Bool) :
    (authentication_run auth v saveOk).exit = .exited 0
      ∧ (authentication_run auth v saveOk).exit
          = (authentication_run auth v2 saveOk).exit
      ∧ (authentication_run auth v saveOk).writes
          = (authentication_run auth v2 saveOk).writes
      ∧ (threshold_run t ρ psig v).exit = .normal
      ∧ (threshold_run t ρ psig v).exit = (threshold_run t ρ psig v2).exit
      ∧ (schnorr_run pk sk sigBytes v).exit = .normal
      ∧ (schnorr_run pk sk sigBytes v).exit
          = (schnorr_run pk sk sigBytes v2).exit :=
  ⟨rfl, rfl, rfl, threshold_run_exit_normal t ρ psig v, rfl, rfl, rfl⟩

/-- C4: only the authentication demo writes to the filesystem.
`save_to_file` called with `"public_key.bin"` creates-or-overwrites
that file with exactly the public key bytes, leaves every other file
unchanged, and its effect is independent of the secret key (the secret
key is never written); a successful authentication run writes exactly
that one file, and every other demo run performs no writes at all. -/
theorem c4_only_public_key_file_written
    (auth : QuantumSafeAuth) (fs : String → Option Bytes) (v saveOk : Bool)
    (t : QuantumSafeThreshold) (ρ : Nat → Nat) (psig : Nat → Bytes)
    (pk sk sigBytes data classicSig pqcSig : Bytes) (cv pv : Bool)
    (encapsulate : Bytes → Bytes × Bytes)
    (decapsulate : Bytes → Bytes → Bytes) (opened : Option Bytes) :
    save_to_file auth fs "public_key.bin" "public_key.bin"
        = some auth.public_key
      ∧ (∀ f, f ≠ "public_key.bin" →
          save_to_file auth fs "public_key.bin" f = fs f)
      ∧ (∀ sk2, save_to_file (QuantumSafeAuth.mk auth.public_key sk2) fs
            "public_key.bin"
          = save_to_file auth fs "public_key.bin")
      ∧ (authentication_run auth v true).writes
          = [("public_key.bin", auth.public_key)]
      ∧ (threshold_run t ρ psig v).writes = []
      ∧ (schnorr_run pk sk sigBytes v).writes = []
      ∧ (hybrid_run data classicSig pqcSig cv pv).writes = []
      ∧ (frodokem_run pk sk encapsulate decapsulate).writes = []
      ∧ (ntru_run pk sk encapsulate decapsulate).writes = []
      ∧ (dilithium3_run pk opened).writes = []
      ∧ (sphincs_run pk opened).writes = []
      ∧ (falcon_run pk opened).writes = [] := by
  refine ⟨by simp [save_to_file], fun f hf => by simp [save_to_file, hf],
    fun sk2 => rfl, rfl, rfl, rfl, rfl, rfl, rfl, rfl, rfl, rfl⟩

/-- Witness for C4 at concrete inputs, discharging the
other-filename hypothesis at `"other.bin"`. -/
theorem c4_only_public_key_file_written_witness :
    save_to_file (QuantumSafeAuth.mk [1] [2]) (fun f => none)
        "public_key.bin" "public_key.bin" = some [1]
      ∧ save_to_file (QuantumSafeAuth.mk [1] [2]) (fun f => none)
          "public_key.bin" "other.bin" = (fun f => (none : Option Bytes)) "other.bin"
      ∧ save_to_file (QuantumSafeAuth.mk [1] [9]) (fun f => none) "public_key.bin"
          = save_to_file (QuantumSafeAuth.mk [1] [2]) (fun f => none) "public_key.bin"
      ∧ (authentication_run (QuantumSafeAuth.mk [1] [2]) true true).writes
          = [("public_key.bin", [1])]
      ∧ (threshold_run (QuantumSafeThreshold.mk [1] [2]) (fun n => n)
          (fun n => [n]) true).writes = []
      ∧ (schnorr_run [1] [2] [3] true).writes = []
      ∧ (hybrid_run [0] [1] [2] true true).writes = []
      ∧ (frodokem_run [1] [2] (fun b => ([3], [4])) (fun c s => [3])).writes = []
      ∧ (ntru_run [1] [2] (fun b => ([3], [4])) (fun c s => [3])).writes = []
      ∧ (dilithium3_run [1] (some [5])).writes = []
      ∧ (sphincs_run [1] (some [5])).writes = []
      ∧ (falcon_run [1] (some [5])).writes = [] := by
  have h := c4_only_public_key_file_written (QuantumSafeAuth.mk [1] [2])
    (fun f => none) true true (QuantumSafeThreshold.mk [1] [2]) (fun n => n)
    (fun n => [n]) [1] [2] [3] [0] [1] [2] true true
    (fun b => ([3], [4])) (fun c s => [3]) (some [5])
  exact ⟨h.1, h.2.1 "other.bin" (by decide), h.2.2.1 [9], h.2.2.2.1,
    h.2.2.2.2.1, h.2.2.2.2.2.1, h.2.2.2.2.2.2.1, h.2.2.2.2.2.2.2.1,
    h.2.2.2.2.2.2.2.2.1, h.2.2.2.2.2.2.2.2.2.1,
    h.2.2.2.2.2.2.2.2.2.2.1, h.2.2.2.2.2.2.2.2.2.2.2⟩

/-- C5: each KEM demo (FrodoKEM and NTRU) declares key agreement
successful exactly when the decapsulated shared secret equals the
shared secret produced by encapsulation for the matching keypair:
the FrodoKEM demo prints its match line, and the NTRU demo prints
`success = true`, precisely when
`decapsulate(encapsulate(pk).ciphertext, sk) = encapsulate(pk).shared_secret`. -/
theorem c5_kem_success_iff_secrets_equal (pk sk : Bytes)
    (encapsulate : Bytes → Bytes × Bytes)
    (decapsulate : Bytes → Bytes → Bytes) :
    (Event.secretsMatch ∈ (frodokem_run pk sk encapsulate decapsulate).output
        ↔ decapsulate (encapsulate pk).2 sk = (encapsulate pk).1)
      ∧ (Event.sharedSecretsMatchShown true
            ∈ (ntru_run pk sk encapsulate decapsulate).output
        ↔ decapsulate (encapsulate pk).2 sk = (encapsulate pk).1) := by
  constructor
  · by_cases h : (encapsulate pk).1 = decapsulate (encapsulate pk).2 sk
    · simp [frodokem_run, h]
    · simp [frodokem_run, h, Ne.symm h]
  · by_cases h : (encapsulate pk).1 = decapsulate (encapsulate pk).2 sk
    · simp [ntru_run, h]
    · simp only [ntru_run, List.mem_cons]
      simp [h, Ne.symm h]

/-- C6: the modelled signature library satisfies the round trip the
demos (Dilithium3, Falcon512, SPHINCS+) rely on: `open` on a message
signed with the secret key of a keypair succeeds under that keypair
public key and returns the original message, while a public key from a
mismatched keypair or a tampered message is rejected.  The demos
invoke exactly `keypair`, `sign m sk`, `open sm pk`. -/
theorem c6_sign_open_roundtrip (seed : Nat) (m : Bytes) :
    SpecSig.openSigned (SpecSig.sign m (SpecSig.keypair seed).2)
        (SpecSig.keypair seed).1 = some m
      ∧ (∀ seed2, (SpecSig.keypair seed2).1 ≠ (SpecSig.keypair seed).1 →
          SpecSig.openSigned (SpecSig.sign m (SpecSig.keypair seed).2)
            (SpecSig.keypair seed2).1 = none)
      ∧ (∀ m2, m2 ≠ m →
          SpecSig.openSigned
            (SpecSig.tamper (SpecSig.sign m (SpecSig.keypair seed).2) m2)
            (SpecSig.keypair seed).1 = none) := by
  refine ⟨by simp [SpecSig.openSigned, SpecSig.sign, SpecSig.keypair], ?_, ?_⟩
  · intro seed2 hne
    simp only [SpecSig.keypair] at hne
    simp [SpecSig.openSigned, SpecSig.sign, SpecSig.keypair, Ne.symm hne]
  · intro m2 hne
    simp [SpecSig.openSigned, SpecSig.sign, SpecSig.tamper, SpecSig.keypair,
      hne, Ne.symm hne]

/-- Witness for C6 at seed 0, message `[1]`, mismatched seed 1, and
tampered message `[2]`. -/
theorem c6_sign_open_roundtrip_witness :
    SpecSig.openSigned (SpecSig.sign [1] (SpecSig.keypair 0).2)
        (SpecSig.keypair 0).1 = some [1]
      ∧ ((SpecSig.keypair 1).1 ≠ (SpecSig.keypair 0).1
          ∧ SpecSig.openSigned (SpecSig.sign [1] (SpecSig.keypair 0).2)
              (SpecSig.keypair 1).1 = none)
      ∧ (([2] : Bytes) ≠ [1]
          ∧ SpecSig.openSigned
              (SpecSig.tamper (SpecSig.sign [1] (SpecSig.keypair 0).2) [2])
              (SpecSig.keypair 0).1 = none) :=
  ⟨(c6_sign_open_roundtrip 0 [1]).1,
   ⟨by decide, (c6_sign_open_roundtrip 0 [1]).2.1 1 (by decide)⟩,
   ⟨by decide, (c6_sign_open_roundtrip 0 [1]).2.2 [2] (by decide)⟩⟩

/-- C7 counterexample: the rust-liboqs toolkit `main` reads menu
choices from stdin, and its operation sequence is NOT identical across
runtime inputs: with the same randomness, input lines `2` then `5` run
the hybrid demo before exiting the loop, while input line `5` alone
exits at once. -/
theorem c7_counterexample_stdin_changes_ops :
    liboqs_main_ops [] ["2", "5"] ≠ liboqs_main_ops [] ["5"] := by decide

/-- C7 amended: no program reads its command-line arguments, and each
of the five pqcrypto demo executables performs a fixed operation
sequence regardless of any runtime input; the rust-liboqs toolkit
executable is also independent of `argv`, but its operation sequence
does depend on the menu choices read from stdin. -/
theorem c7_amended_fixed_except_liboqs_menu
    (argv argv2 stdin stdin2 : List String) :
    dilithium3_ops argv stdin = dilithium3_ops argv2 stdin2
      ∧ sphincs_ops argv stdin = sphincs_ops argv2 stdin2
      ∧ falcon_ops argv stdin = falcon_ops argv2 stdin2
      ∧ frodokem_ops argv stdin = frodokem_ops argv2 stdin2
      ∧ ntru_ops argv stdin = ntru_ops argv2 stdin2
      ∧ liboqs_main_ops argv stdin = liboqs_main_ops argv2 stdin
      ∧ ∃ s1 s2 : List String, liboqs_main_ops argv s1 ≠ liboqs_main_ops argv s2 :=
  ⟨rfl, rfl, rfl, rfl, rfl, rfl, ["2", "5"], ["5"],
   by show menu_loop ["2", "5"] ≠ menu_loop ["5"]; decide⟩

/-- C9: in `hybrid_keys`, the hybrid signature is the byte
concatenation of the Ed25519 signature followed by the Dilithium2
signature; the two verification calls receive exactly the two
individual signatures (so the non-trivial concatenation itself is
never verified), and the overall success line is printed exactly when
both individual verifications succeed. -/
theorem c9_hybrid_concat_and_verdict (data classicSig pqcSig : Bytes)
    (classicValid pqcValid : Bool) :
    Event.hybridSignatureShown (classicSig ++ pqcSig)
        ∈ (hybrid_run data classicSig pqcSig classicValid pqcValid).output
      ∧ (Event.allSignaturesValid
            ∈ (hybrid_run data classicSig pqcSig classicValid pqcValid).output
          ↔ classicValid = true ∧ pqcValid = true)
      ∧ verifiedSigs (hybrid_run data classicSig pqcSig classicValid pqcValid)
          = [classicSig, pqcSig]
      ∧ (classicSig ≠ [] → pqcSig ≠ [] →
          classicSig ++ pqcSig
            ∉ verifiedSigs
                (hybrid_run data classicSig pqcSig classicValid pqcValid)) := by
  refine ⟨by simp [hybrid_run], ?_, ?_, ?_⟩
  · cases classicValid <;> cases pqcValid <;> simp [hybrid_run]
  · cases classicValid <;> cases pqcValid <;> simp [hybrid_run, verifiedSigs]
  · intro hc hp hmem
    have hv : verifiedSigs (hybrid_run data classicSig pqcSig classicValid pqcValid)
        = [classicSig, pqcSig] := by
      cases classicValid <;> cases pqcValid <;> simp [hybrid_run, verifiedSigs]
    rw [hv] at hmem
    rcases List.mem_pair.mp hmem with h | h
    · have := congrArg List.length h
      simp at this
      exact hp this
    · have := congrArg List.length h
      simp at this
      exact hc this

/-- Witness for C9 at concrete non-empty signatures with both
verifications succeeding. -/
theorem c9_hybrid_concat_and_verdict_witness :
    Event.hybridSignatureShown ([1] ++ [2])
        ∈ (hybrid_run [0] [1] [2] true true).output
      ∧ (Event.allSignaturesValid ∈ (hybrid_run [0] [1] [2] true true).output
          ↔ true = true ∧ true = true)
      ∧ verifiedSigs (hybrid_run [0] [1] [2] true true) = [[1], [2]]
      ∧ [1] ++ [2] ∉ verifiedSigs (hybrid_run [0] [1] [2] true true) :=
  ⟨(c9_hybrid_concat_and_verdict [0] [1] [2] true true).1,
   (c9_hybrid_concat_and_verdict [0] [1] [2] true true).2.1,
   (c9_hybrid_concat_and_verdict [0] [1] [2] true true).2.2.1,
   (c9_hybrid_concat_and_verdict [0] [1] [2] true true).2.2.2
     (by decide) (by decide)⟩

/-- C10: `reconstruct_keys_from_bytes` rejects a public key byte
string of the wrong length (and likewise a secret key byte string)
with the corresponding error, without invoking either parser (the
result is the same for every parser); it returns `ok` with both keys
exactly when both lengths match and both `from_bytes` parses
succeed. -/
theorem c10_reconstruct_validates_lengths_first
    (pkLen skLen : Nat) (fromBytesPk fromBytesSk : Bytes → Option Bytes)
    (pk_bytes sk_bytes : Bytes) :
    (pk_bytes.length ≠ pkLen → ∀ f2 g2,
        reconstruct_keys_from_bytes pkLen skLen f2 g2 pk_bytes sk_bytes
          = .error "Invalid public key length")
      ∧ (pk_bytes.length = pkLen → sk_bytes.length ≠ skLen → ∀ f2 g2,
          reconstruct_keys_from_bytes pkLen skLen f2 g2 pk_bytes sk_bytes
            = .error "Invalid secret key length")
      ∧ (∀ pk sk,
          reconstruct_keys_from_bytes pkLen skLen fromBytesPk fromBytesSk
              pk_bytes sk_bytes = .ok (pk, sk)
            ↔ pk_bytes.length = pkLen ∧ sk_bytes.length = skLen
                ∧ fromBytesPk pk_bytes = some pk
                ∧ fromBytesSk sk_bytes = some sk) := by
  refine ⟨fun h f2 g2 => by simp [reconstruct_keys_from_bytes, h],
    fun h1 h2 f2 g2 => by simp [reconstruct_keys_from_bytes, h1, h2], ?_⟩
  intro pk sk
  by_cases h1 : pk_bytes.length = pkLen
  · by_cases h2 : sk_bytes.length = skLen
    · cases hp : fromBytesPk pk_bytes with
      | none => simp [reconstruct_keys_from_bytes, h1, h2, hp]
      | some pkv =>
        cases hs : fromBytesSk sk_bytes with
        | none => simp [reconstruct_keys_from_bytes, h1, h2, hp, hs]
        | some skv =>
          simp [reconstruct_keys_from_bytes, h1, h2, hp, hs, and_assoc]
    · simp [reconstruct_keys_from_bytes, h1, h2]
  · simp [reconstruct_keys_from_bytes, h1]

/-- Witness for C10: wrong public key length, wrong secret key length,
and a successful reconstruction, each at concrete inputs with the
identity parsers. -/
theorem c10_reconstruct_validates_lengths_first_witness :
    reconstruct_keys_from_bytes 1 1 Option.some Option.some [7, 8] [9]
        = .error "Invalid public key length"
      ∧ reconstruct_keys_from_bytes 1 1 Option.some Option.some [7] [8, 9]
          = .error "Invalid secret key length"
      ∧ (reconstruct_keys_from_bytes 1 1 Option.some Option.some [7] [8]
            = .ok ([7], [8])
          ↔ ([7] : Bytes).length = 1 ∧ ([8] : Bytes).length = 1
              ∧ Option.some [7] = some [7] ∧ Option.some [8] = some [8]) :=
  ⟨(c10_reconstruct_validates_lengths_first 1 1 Option.some Option.some
      [7, 8] [9]).1 (by decide) Option.some Option.some,
   (c10_reconstruct_validates_lengths_first 1 1 Option.some Option.some
      [7] [8, 9]).2.1 (by decide) (by decide) Option.some Option.some,
   (c10_reconstruct_validates_lengths_first 1 1 Option.some Option.some
      [7] [8]).2.2 [7] [8]⟩

end QuantovaTools
